import Mathlib

/-!
Verification development for the water-quality sample management backend.

The definitions below are a shallow embedding of the repository's core:
the parameter evaluation engine (`ParameterMaster` methods in
`src/config/index.js`, new variant and legacy variant), the status engine
(`StatusEngine` in the FIELD+LAB workflow and the legacy
`src/services/statusEngine.js`), the sample lifecycle state machine
(`src/models/Sample.js`) and the controller-level operations
(`src/controllers/sampleController.js`, parameter update controller).

JavaScript numbers are modelled as rationals (ℚ); `NaN` is modelled by
`Option ℚ` being `none` where a computation can produce it.  Mongoose
`Map`s are modelled as insertion-ordered association lists.  Mutable
database state is modelled by explicit state passing:  each controller
returns `Except` (an error models "throw before save", so nothing is
persisted on the error path).
-/

/-- Parameter / overall verdicts (`parameterStatuses` in `src/config/index.js`). -/
inductive Status
  | ACCEPTABLE
  | PERMISSIBLE
  | NOT_ACCEPTABLE
deriving DecidableEq, Repr, Fintype

/-- Parameter evaluation kinds (`parameterTypes` in `src/config/index.js`). -/
inductive PKind
  | RANGE
  | MAX
  | ENUM
  | TEXT
deriving DecidableEq, Repr, Fintype

/-- Test stage of a parameter (`testLocations`). -/
inductive TestLocation
  | FIELD
  | LAB
deriving DecidableEq, Repr, Fintype

/-- A `{min, max}` limit pair (the `limitSchema`); either bound may be null. -/
structure Limit where
  min : Option ℚ
  max : Option ℚ
deriving DecidableEq, Repr

/-- A raw JavaScript input value as it reaches the evaluator:
`null`, `undefined`, a number, or a string. -/
inductive JsValue
  | jnull
  | jundef
  | jnum (q : ℚ)
  | jstr (s : String)
deriving DecidableEq, Repr

namespace JsValue

/-- The JS test `value === null || value === undefined || value === ''`. -/
def isEmptyValue (v : JsValue) : Bool :=
  v = jnull ∨ v = jundef ∨ v = jstr ""

/-- Model of JS `value.toString()`.  Only the string and numeric cases are
exercised by the code under verification; the rational rendering stands in
for JS `Number#toString`. -/
def jsToString : JsValue → String
  | jnull => "null"
  | jundef => "undefined"
  | jnum q => toString q
  | jstr s => s

end JsValue

/-- Model of JS `String#toLowerCase`, written over the character list so the
kernel can evaluate it. -/
def toLowerStr (s : String) : String :=
  String.mk (s.toList.map Char.toLower)

/-- Model of JS `String#toUpperCase`. -/
def toUpperStr (s : String) : String :=
  String.mk (s.toList.map Char.toUpper)

/-- Model of JS `String#trim`: strip whitespace from both ends. -/
def trimStr (s : String) : String :=
  String.mk (((s.toList.dropWhile Char.isWhitespace).reverse.dropWhile Char.isWhitespace).reverse)

/-- Numeric value of a digit list, most significant first. -/
def digitsVal (l : List Char) : Nat :=
  l.foldl (fun acc c => acc * 10 + (c.toNat - '0'.toNat)) 0

/-- Parse an unsigned decimal prefix of a character list; `none` models `NaN`
(no digits could be consumed).  Trailing non-numeric characters are ignored,
as JS `parseFloat` does. -/
def parseUnsigned (cs : List Char) : Option ℚ :=
  let intPart := cs.takeWhile Char.isDigit
  let rest := cs.drop intPart.length
  match rest with
  | '.' :: frac =>
    let fracPart := frac.takeWhile Char.isDigit
    if intPart.isEmpty && fracPart.isEmpty then none
    else some ((digitsVal intPart : ℚ) + (digitsVal fracPart : ℚ) / (10 ^ fracPart.length))
  | _ => if intPart.isEmpty then none else some (digitsVal intPart : ℚ)

/-- Model of the JS builtin `parseFloat`: numbers pass through, strings are
parsed as an optional sign followed by a decimal literal (leading whitespace
skipped, trailing junk ignored), everything else is `NaN` (`none`). -/
def parseFloat : JsValue → Option ℚ
  | JsValue.jnum q => some q
  | JsValue.jstr s =>
    match s.toList.dropWhile Char.isWhitespace with
    | '-' :: rest => (parseUnsigned rest).map (fun q => -q)
    | '+' :: rest => parseUnsigned rest
    | cs => parseUnsigned cs
  | JsValue.jnull => none
  | JsValue.jundef => none

/-- Comparison `value >= b` under JS `NaN` semantics: any comparison with
`NaN` (modelled as `none`) is false. -/
def qGeB (v : Option ℚ) (b : ℚ) : Bool :=
  match v with
  | some x => b ≤ x
  | none => false

/-- Comparison `value <= b` under JS `NaN` semantics. -/
def qLeB (v : Option ℚ) (b : ℚ) : Bool :=
  match v with
  | some x => x ≤ b
  | none => false

/-- A parameter definition (`parameterMasterSchema`, new FIELD+LAB variant in
`src/config/index.js`).  `id` models the Mongo `_id`; `enumEvaluation` models
the Mongoose `Map` as an insertion-ordered association list. -/
structure ParameterMaster where
  id : Nat
  code : String
  name : String
  unit : String
  type : PKind
  testLocation : TestLocation
  acceptableLimit : Limit
  permissibleLimit : Limit
  physicalLimit : Limit
  affectsOverall : Bool
  maxValue : Option ℚ
  enumEvaluation : List (String × Status)
  testMethod : String
  isActive : Bool
deriving DecidableEq, Repr

/-- Validation failures produced by `validatePhysicalLimits`.  Each
constructor corresponds to one error message in the source; the payload
carries what the message interpolates. -/
inductive VErr
  | requiredValue (pname : String)
  | notANumber (pname : String)
  | belowPhysicalMin (pname : String) (bound : ℚ)
  | abovePhysicalMax (pname : String) (bound : ℚ)
  | noEnumConfigured (pname : String)
  | invalidEnumValue (pname : String) (v : String)
  | notText (pname : String)
  | textTooLong (pname : String)
deriving DecidableEq, Repr

/-- Errors thrown by `calculateStatus` / `calculateEnumStatus` as a defensive
measure (reached only when validation was skipped). -/
inductive CalcErr
  | requiredValue (pname : String)
  | noEnumConfig (pname : String)
  | invalidEnum (pname : String) (v : String)
deriving DecidableEq, Repr

namespace ParameterMaster

/-- `getEnumKeys()` of `src/config/index.js`. -/
def getEnumKeys (p : ParameterMaster) : List String :=
  p.enumEvaluation.map (fun kv => kv.1)

/-- STEP 2 of `validatePhysicalLimits`: numeric parse and physical bounds
(for `RANGE` / `MAX` kinds). -/
def checkNumeric (p : ParameterMaster) (v : JsValue) : Option VErr :=
  match parseFloat v with
  | none => some (VErr.notANumber p.name)
  | some n =>
    match p.physicalLimit.min with
    | some pmin =>
      if n < pmin then some (VErr.belowPhysicalMin p.name pmin)
      else
        match p.physicalLimit.max with
        | some pmax => if pmax < n then some (VErr.abovePhysicalMax p.name pmax) else none
        | none => none
    | none =>
      match p.physicalLimit.max with
      | some pmax => if pmax < n then some (VErr.abovePhysicalMax p.name pmax) else none
      | none => none

/-- STEP 3 of `validatePhysicalLimits`: the submitted value must match one of
the configured enum keys, case-insensitively after trimming. -/
def checkEnum (p : ParameterMaster) (v : JsValue) : Option VErr :=
  let enumKeys := p.getEnumKeys
  if enumKeys.isEmpty then some (VErr.noEnumConfigured p.name)
  else
    let normalizedValue := trimStr v.jsToString
    match enumKeys.find? (fun key => toLowerStr key = toLowerStr normalizedValue) with
    | some _ => none
    | none => some (VErr.invalidEnumValue p.name v.jsToString)

/-- STEP 4 of `validatePhysicalLimits`: `TEXT` values must be string/number
coercible and at most 500 characters long. -/
def checkText (p : ParameterMaster) (v : JsValue) : Option VErr :=
  match v with
  | JsValue.jstr _ | JsValue.jnum _ =>
    if 500 < (v.jsToString).length then some (VErr.textTooLong p.name) else none
  | _ => some (VErr.notText p.name)

/-- `validatePhysicalLimits` (`src/config/index.js`, new variant); `none`
means `{isValid: true}` and `some e` the corresponding `{isValid: false}`
result.  The four steps run in the source's order and short-circuit. -/
def validatePhysicalLimits (p : ParameterMaster) (v : JsValue) : Option VErr :=
  if v.isEmptyValue then some (VErr.requiredValue p.name)
  else
    match (if p.type = PKind.RANGE ∨ p.type = PKind.MAX then p.checkNumeric v else none) with
    | some e => some e
    | none =>
      match (if p.type = PKind.ENUM then p.checkEnum v else none) with
      | some e => some e
      | none =>
        if p.type = PKind.TEXT then p.checkText v else none

/-- `calculateRangeStatus` (new variant): value within the acceptable range
(both bounds present) is ACCEPTABLE, else within the permissible range is
PERMISSIBLE, else NOT_ACCEPTABLE.  The argument is the already-parsed number
(`none` models `NaN`). -/
def calculateRangeStatus (p : ParameterMaster) (value : Option ℚ) : Status :=
  let accOk :=
    match p.acceptableLimit.min, p.acceptableLimit.max with
    | some amin, some amax => qGeB value amin && qLeB value amax
    | _, _ => false
  if accOk then Status.ACCEPTABLE
  else
    let permOk :=
      match p.permissibleLimit.min, p.permissibleLimit.max with
      | some pmin, some pmax => qGeB value pmin && qLeB value pmax
      | _, _ => false
    if permOk then Status.PERMISSIBLE else Status.NOT_ACCEPTABLE

/-- `calculateMaxStatus` (new variant): the acceptable maximum falls back to
the legacy `maxValue` field; no configured maximum at all means ACCEPTABLE. -/
def calculateMaxStatus (p : ParameterMaster) (value : Option ℚ) : Status :=
  let acceptableMax :=
    match p.acceptableLimit.max with
    | some m => some m
    | none => p.maxValue
  let permissibleMax := p.permissibleLimit.max
  match acceptableMax with
  | none => Status.ACCEPTABLE
  | some am =>
    if qLeB value am then Status.ACCEPTABLE
    else
      match permissibleMax with
      | some pm => if qLeB value pm then Status.PERMISSIBLE else Status.NOT_ACCEPTABLE
      | none => Status.NOT_ACCEPTABLE

/-- The `for (const [key, status] of this.enumEvaluation)` loop of
`calculateEnumStatus`: first key matching case-insensitively wins. -/
def enumLoop (normLower : String) : List (String × Status) → Option Status
  | [] => none
  | (key, st) :: rest =>
    if toLowerStr key = normLower then some st else enumLoop normLower rest

/-- `calculateEnumStatus` (new variant): throws when no mapping is configured
or the value matches no key; otherwise returns the matched key's status. -/
def calculateEnumStatus (p : ParameterMaster) (v : JsValue) : Except CalcErr Status :=
  if p.enumEvaluation.isEmpty then Except.error (CalcErr.noEnumConfig p.name)
  else
    let normalizedValue := trimStr v.jsToString
    match enumLoop (toLowerStr normalizedValue) p.enumEvaluation with
    | some st => Except.ok st
    | none => Except.error (CalcErr.invalidEnum p.name v.jsToString)

/-- `calculateStatus` (new variant): rejects empty values defensively, then
dispatches on the parameter kind. -/
def calculateStatus (p : ParameterMaster) (v : JsValue) : Except CalcErr Status :=
  if v.isEmptyValue then Except.error (CalcErr.requiredValue p.name)
  else
    match p.type with
    | PKind.RANGE => Except.ok (p.calculateRangeStatus (parseFloat v))
    | PKind.MAX => Except.ok (p.calculateMaxStatus (parseFloat v))
    | PKind.ENUM => p.calculateEnumStatus v
    | PKind.TEXT => Except.ok Status.ACCEPTABLE

end ParameterMaster

/-- An immutable parameter snapshot (`parameterSnapshotSchema` in
`src/models/Sample.js`).  `status` is an `Option` because the schema-level
aggregation functions are defined over arbitrary parameter objects whose
status may be absent. -/
structure ParameterSnapshot where
  parameterRef : Nat
  code : String
  name : String
  unit : String
  type : PKind
  testLocation : TestLocation
  acceptableLimit : Limit
  permissibleLimit : Limit
  physicalLimit : Limit
  maxValue : Option ℚ
  enumEvaluation : List (String × Status)
  testMethod : String
  affectsOverall : Bool
  value : JsValue
  status : Option Status
deriving DecidableEq, Repr

/-- STEP 3 of `StatusEngine._processParameters` (`src/unnamed/part_007`):
build the immutable snapshot, copying every limit field and the enum mapping
off the master at this instant. -/
def mkSnapshot (p : ParameterMaster) (value : JsValue) (status : Status) : ParameterSnapshot :=
  { parameterRef := p.id
    code := p.code
    name := p.name
    unit := p.unit
    type := p.type
    testLocation := p.testLocation
    acceptableLimit := { min := p.acceptableLimit.min, max := p.acceptableLimit.max }
    permissibleLimit := { min := p.permissibleLimit.min, max := p.permissibleLimit.max }
    physicalLimit := { min := p.physicalLimit.min, max := p.physicalLimit.max }
    maxValue := p.maxValue
    enumEvaluation := p.enumEvaluation
    testMethod := p.testMethod
    affectsOverall := p.affectsOverall
    value := value
    status := some status }

/-- Per-input failures accumulated by `StatusEngine._processParameters`. -/
inductive PErr
  | notFound (ref : Nat)
  | invalid (e : VErr)
  | calcFailed (e : CalcErr)
deriving DecidableEq, Repr

namespace StatusEngine

/-- One iteration of the `for (const input of parameterInputs)` loop of
`_processParameters`: look the master up in the map, validate, calculate,
snapshot. -/
def processInput (parameterMasters : List ParameterMaster) (input : Nat × JsValue) :
    Except PErr ParameterSnapshot :=
  match parameterMasters.find? (fun m => m.id = input.1) with
  | none => Except.error (PErr.notFound input.1)
  | some paramMaster =>
    match paramMaster.validatePhysicalLimits input.2 with
    | some e => Except.error (PErr.invalid e)
    | none =>
      match paramMaster.calculateStatus input.2 with
      | Except.error e => Except.error (PErr.calcFailed e)
      | Except.ok status => Except.ok (mkSnapshot paramMaster input.2 status)

/-- The error component of a processed input, if any. -/
def errPart (r : Except PErr ParameterSnapshot) : Option PErr :=
  match r with
  | Except.error e => some e
  | Except.ok _ => none

/-- The snapshot component of a processed input, if any. -/
def okPart (r : Except PErr ParameterSnapshot) : Option ParameterSnapshot :=
  match r with
  | Except.ok s => some s
  | Except.error _ => none

/-- `StatusEngine._processParameters` (`src/unnamed/part_007`): process every
input, accumulating all validation errors; throw the whole batch (with every
error) if any failed, otherwise return all snapshots. -/
def processParameters (parameterInputs : List (Nat × JsValue))
    (parameterMasters : List ParameterMaster) :
    Except (List PErr) (List ParameterSnapshot) :=
  let results := parameterInputs.map (processInput parameterMasters)
  let validationErrors := results.filterMap errPart
  if validationErrors.isEmpty then Except.ok (results.filterMap okPart)
  else Except.error validationErrors

/-- `StatusEngine.calculateOverallStatus` (`src/unnamed/part_007` lines
245-267): worst status wins among the parameters with
`affectsOverall !== false`. -/
def calculateOverallStatus (parameters : List ParameterSnapshot) : Option Status :=
  if parameters.isEmpty then none
  else
    let affectingParams := parameters.filter (fun p => p.affectsOverall)
    if affectingParams.isEmpty then some Status.ACCEPTABLE
    else if affectingParams.any (fun p => p.status = some Status.NOT_ACCEPTABLE) then
      some Status.NOT_ACCEPTABLE
    else if affectingParams.any (fun p => p.status = some Status.PERMISSIBLE) then
      some Status.PERMISSIBLE
    else some Status.ACCEPTABLE

/-- Failures of `StatusEngine.processLabTest`. -/
inductive LabErr
  | noInputs
  | notLabParameter (ref : Nat)
  | missingParams (names : List String)
  | validationFailed (errs : List PErr)
deriving DecidableEq, Repr

/-- `StatusEngine.processLabTest` (`src/unnamed/part_007` lines 113-159):
validate that only and all active LAB parameters are submitted, process them,
merge after the existing FIELD snapshots, and compute the overall status over
the merged collection.  `labParameterMasters` models the database fetch of
the active LAB masters. -/
def processLabTest (parameterInputs : List (Nat × JsValue))
    (labParameterMasters : List ParameterMaster)
    (existingFieldParams : List ParameterSnapshot) :
    Except LabErr (List ParameterSnapshot × Option Status) :=
  if parameterInputs.isEmpty then Except.error LabErr.noInputs
  else
    let labParamIds := labParameterMasters.map (fun m => m.id)
    let submittedIds := parameterInputs.map (fun i => i.1)
    match parameterInputs.find? (fun i => !(labParamIds.contains i.1)) with
    | some i => Except.error (LabErr.notLabParameter i.1)
    | none =>
      let missingLabParams := labParameterMasters.filter (fun m => !(submittedIds.contains m.id))
      if !missingLabParams.isEmpty then
        Except.error (LabErr.missingParams (missingLabParams.map (fun m => m.name)))
      else
        match processParameters parameterInputs labParameterMasters with
        | Except.error es => Except.error (LabErr.validationFailed es)
        | Except.ok labSnaps =>
          let allParameters := existingFieldParams ++ labSnaps
          Except.ok (allParameters, calculateOverallStatus allParameters)

end StatusEngine

/-- Lifecycle states of the FIELD+LAB workflow (`lifecycleStatuses` used by
`src/models/Sample.js`). -/
inductive Lifecycle
  | COLLECTED
  | FIELD_TESTED
  | LAB_TESTED
  | PUBLISHED
  | ARCHIVED
deriving DecidableEq, Repr, Fintype

/-- The `VALID_TRANSITIONS` table of `src/models/Sample.js` lines 235-241. -/
def VALID_TRANSITIONS : Lifecycle → List Lifecycle
  | Lifecycle.COLLECTED => [Lifecycle.FIELD_TESTED]
  | Lifecycle.FIELD_TESTED => [Lifecycle.LAB_TESTED]
  | Lifecycle.LAB_TESTED => [Lifecycle.PUBLISHED]
  | Lifecycle.PUBLISHED => [Lifecycle.ARCHIVED]
  | Lifecycle.ARCHIVED => [Lifecycle.PUBLISHED]

/-- `Sample.isValidTransition` (`src/models/Sample.js`). -/
def isValidTransition (currentStatus newStatus : Lifecycle) : Bool :=
  (VALID_TRANSITIONS currentStatus).any (fun s => s = newStatus)

/-- The sample aggregate (`sampleSchema` in `src/models/Sample.js`), reduced
to the fields the lifecycle and testing operations read or write.  Actor ids
and timestamps are modelled as naturals. -/
structure Sample where
  sampleId : String
  lifecycleStatus : Lifecycle
  parameters : List ParameterSnapshot
  overallStatus : Option Status
  isDeleted : Bool
  fieldTestedBy : Option Nat
  fieldTestedAt : Option Nat
  labTestedBy : Option Nat
  labTestedAt : Option Nat
  publishedBy : Option Nat
  publishedAt : Option Nat
deriving DecidableEq, Repr

namespace Sample

/-- `sample.getFieldParameters()`. -/
def getFieldParameters (s : Sample) : List ParameterSnapshot :=
  s.parameters.filter (fun p => p.testLocation = TestLocation.FIELD)

/-- `sample.archive()`: soft delete plus status change. -/
def archive (s : Sample) : Sample :=
  { s with isDeleted := true, lifecycleStatus := Lifecycle.ARCHIVED }

/-- `sample.restore()`: clear the flag and return to PUBLISHED. -/
def restore (s : Sample) : Sample :=
  { s with isDeleted := false, lifecycleStatus := Lifecycle.PUBLISHED }

end Sample

/-- Controller-level rejections (`src/controllers/sampleController.js`).
`wrongState` carries the state the operation requires and the sample's
current state, as the HTTP error message does. -/
inductive StateErr
  | deletedSample
  | notArchived
  | wrongState (required : Lifecycle) (current : Lifecycle)
deriving DecidableEq, Repr

namespace SampleController

/-- Rejections of `submitLabTest`. -/
inductive SubmitErr
  | deletedSample
  | wrongState (required : Lifecycle) (current : Lifecycle)
  | engine (e : StatusEngine.LabErr)
deriving DecidableEq, Repr

/-- `submitLabTest` (`src/controllers/sampleController.js` lines 116-188):
requires a live FIELD_TESTED sample, runs the status engine over the batch
and, only on success, stores the merged snapshots, the overall status and the
LAB_TESTED stage.  An error models the controller's early return: the sample
is not saved. -/
def submitLabTest (s : Sample) (parameterInputs : List (Nat × JsValue))
    (labParameterMasters : List ParameterMaster) (userId now : Nat) :
    Except SubmitErr Sample :=
  if s.isDeleted then Except.error SubmitErr.deletedSample
  else if s.lifecycleStatus ≠ Lifecycle.FIELD_TESTED then
    Except.error (SubmitErr.wrongState Lifecycle.FIELD_TESTED s.lifecycleStatus)
  else
    match StatusEngine.processLabTest parameterInputs labParameterMasters
        s.getFieldParameters with
    | Except.error e => Except.error (SubmitErr.engine e)
    | Except.ok (allParameters, overallStatus) =>
      Except.ok { s with
        parameters := allParameters
        overallStatus := overallStatus
        lifecycleStatus := Lifecycle.LAB_TESTED
        labTestedBy := some userId
        labTestedAt := some now }

/-- `publishSample` (`src/controllers/sampleController.js` lines 196-249):
only a live LAB_TESTED sample can be published; otherwise the error names the
current state and nothing is saved. -/
def publishSample (s : Sample) (userId now : Nat) : Except StateErr Sample :=
  if s.isDeleted then Except.error StateErr.deletedSample
  else if s.lifecycleStatus ≠ Lifecycle.LAB_TESTED then
    Except.error (StateErr.wrongState Lifecycle.LAB_TESTED s.lifecycleStatus)
  else
    Except.ok { s with
      lifecycleStatus := Lifecycle.PUBLISHED
      publishedBy := some userId
      publishedAt := some now }

/-- `archiveSample`: only a live PUBLISHED sample can be archived. -/
def archiveSample (s : Sample) : Except StateErr Sample :=
  if s.isDeleted then Except.error StateErr.deletedSample
  else if s.lifecycleStatus ≠ Lifecycle.PUBLISHED then
    Except.error (StateErr.wrongState Lifecycle.PUBLISHED s.lifecycleStatus)
  else Except.ok s.archive

/-- `restoreSample`: only an archived sample can be restored. -/
def restoreSample (s : Sample) : Except StateErr Sample :=
  if !s.isDeleted then Except.error StateErr.notArchived
  else Except.ok s.restore

/-- The sample that is persisted after an operation: the new record on
success, the untouched record when the controller rejected (threw before
saving). -/
def persistedAfter {e : Type} (s : Sample) (r : Except e Sample) : Sample :=
  match r with
  | Except.ok s2 => s2
  | Except.error _ => s

end SampleController

/-- The body of a parameter update request (`updateParameter` in the
parameter controller, `src/unnamed/part_010` lines 150-213).  A `some` field
models `updates.x !== undefined`. -/
structure ParamUpdates where
  code : Option String := none
  name : Option String := none
  unit : Option String := none
  type : Option PKind := none
  acceptableLimit : Option Limit := none
  permissibleLimit : Option Limit := none
  physicalLimit : Option Limit := none
  enumEvaluation : Option (List (String × Status)) := none
  affectsOverall : Option Bool := none
  testMethod : Option String := none
  isActive : Option Bool := none
deriving DecidableEq, Repr

namespace ParameterController

/-- The field-by-field mutation performed by `updateParameter` on the found
`ParameterMaster` document before `save()`. -/
def applyParamUpdate (p : ParameterMaster) (u : ParamUpdates) : ParameterMaster :=
  { p with
    code := match u.code with | some c => toUpperStr c | none => p.code
    name := u.name.getD p.name
    unit := u.unit.getD p.unit
    type := u.type.getD p.type
    acceptableLimit :=
      match u.acceptableLimit with
      | some l => { min := l.min, max := l.max }
      | none => p.acceptableLimit
    permissibleLimit :=
      match u.permissibleLimit with
      | some l => { min := l.min, max := l.max }
      | none => p.permissibleLimit
    physicalLimit :=
      match u.physicalLimit with
      | some l => { min := l.min, max := l.max }
      | none => p.physicalLimit
    enumEvaluation := u.enumEvaluation.getD p.enumEvaluation
    affectsOverall := u.affectsOverall.getD p.affectsOverall
    testMethod := u.testMethod.getD p.testMethod
    isActive := u.isActive.getD p.isActive }

end ParameterController

/-- The persisted database state the two collections live in: the parameter
registry and the sample store. -/
structure SysState where
  registry : List ParameterMaster
  samples : List Sample
deriving DecidableEq, Repr

namespace ParameterController

/-- `updateParameter` as a state transition: find the definition by id,
apply the updates to it and save it back into the registry.  The sample
store is not part of the operation.  `none` models the 404 path. -/
def updateParameter (st : SysState) (id : Nat) (u : ParamUpdates) : Option SysState :=
  if st.registry.any (fun p => p.id = id) then
    some { st with
      registry := st.registry.map (fun p => if p.id = id then applyParamUpdate p u else p) }
  else none

/-- The state actually persisted by an update request: unchanged on the 404
path. -/
def stateAfterUpdate (st : SysState) (id : Nat) (u : ParamUpdates) : SysState :=
  (updateParameter st id u).getD st

end ParameterController

/-- A parameter definition of the legacy single-stage variant
(second `parameterMasterSchema` in `src/config/index.js`): no physical
limits, no `affectsOverall`, and a plain `enumValues` list. -/
structure LegacyParameterMaster where
  id : Nat
  code : String
  name : String
  unit : String
  type : PKind
  acceptableLimit : Limit
  permissibleLimit : Limit
  maxValue : Option ℚ
  enumValues : List String
  testMethod : String
  isActive : Bool
deriving DecidableEq, Repr

namespace LegacyParameterMaster

/-- Legacy `calculateRangeStatus` (`src/config/index.js` lines 500-519);
the body is identical to the new variant's. -/
def calculateRangeStatus (p : LegacyParameterMaster) (value : Option ℚ) : Status :=
  let accOk :=
    match p.acceptableLimit.min, p.acceptableLimit.max with
    | some amin, some amax => qGeB value amin && qLeB value amax
    | _, _ => false
  if accOk then Status.ACCEPTABLE
  else
    let permOk :=
      match p.permissibleLimit.min, p.permissibleLimit.max with
      | some pmin, some pmax => qGeB value pmin && qLeB value pmax
      | _, _ => false
    if permOk then Status.PERMISSIBLE else Status.NOT_ACCEPTABLE

/-- Legacy `calculateMaxStatus` (`src/config/index.js` lines 527-544). -/
def calculateMaxStatus (p : LegacyParameterMaster) (value : Option ℚ) : Status :=
  let acceptableMax :=
    match p.acceptableLimit.max with
    | some m => some m
    | none => p.maxValue
  let permissibleMax := p.permissibleLimit.max
  match acceptableMax with
  | none => Status.ACCEPTABLE
  | some am =>
    if qLeB value am then Status.ACCEPTABLE
    else
      match permissibleMax with
      | some pm => if qLeB value pm then Status.PERMISSIBLE else Status.NOT_ACCEPTABLE
      | none => Status.NOT_ACCEPTABLE

/-- Legacy `calculateEnumStatus` (`src/config/index.js` lines 551-562):
membership in `enumValues` gives ACCEPTABLE, absence NOT_ACCEPTABLE, and an
empty list gives ACCEPTABLE. -/
def calculateEnumStatus (p : LegacyParameterMaster) (v : JsValue) : Status :=
  if p.enumValues.isEmpty then Status.ACCEPTABLE
  else
    let normalizedValue := trimStr (toLowerStr v.jsToString)
    if p.enumValues.any (fun e => trimStr (toLowerStr e) = normalizedValue) then Status.ACCEPTABLE
    else Status.NOT_ACCEPTABLE

/-- Legacy `calculateStatus` (`src/config/index.js` lines 475-492): a null,
undefined or empty-string value returns ACCEPTABLE outright. -/
def calculateStatus (p : LegacyParameterMaster) (v : JsValue) : Status :=
  if v.isEmptyValue then Status.ACCEPTABLE
  else
    match p.type with
    | PKind.RANGE => p.calculateRangeStatus (parseFloat v)
    | PKind.MAX => p.calculateMaxStatus (parseFloat v)
    | PKind.ENUM => p.calculateEnumStatus v
    | PKind.TEXT => Status.ACCEPTABLE

end LegacyParameterMaster

/-- Failures of the legacy validator. -/
inductive LegacyVErr
  | notANumber (pname : String)
  | invalidEnum (pname : String)
  | tooLong (pname : String)
deriving DecidableEq, Repr

namespace LegacyStatusEngine

/-- `StatusEngine.validateParameterValue` (`src/services/statusEngine.js`
lines 134-146): an empty value is reported as valid; otherwise numeric,
enum-membership and length checks per kind. -/
def validateParameterValue (p : LegacyParameterMaster) (v : JsValue) : Option LegacyVErr :=
  if v.isEmptyValue then none
  else
    match p.type with
    | PKind.RANGE | PKind.MAX =>
      match parseFloat v with
      | none => some (LegacyVErr.notANumber p.name)
      | some _ => none
    | PKind.ENUM =>
      let normalizedValue := trimStr (toLowerStr v.jsToString)
      let validOptions := p.enumValues.map (fun e => trimStr (toLowerStr e))
      if validOptions.contains normalizedValue then none
      else some (LegacyVErr.invalidEnum p.name)
    | PKind.TEXT =>
      if 500 < (v.jsToString).length then some (LegacyVErr.tooLong p.name) else none

end LegacyStatusEngine

/-- The overall-status aggregation exactly as the specification words it:
filter to snapshots where `affectsOverall` is true AND `status` is non-null,
then apply the worst-status-wins priority rule. -/
def aggregateSpec (parameters : List ParameterSnapshot) : Option Status :=
  if parameters.isEmpty then none
  else
    let filtered := parameters.filter (fun p => p.affectsOverall && p.status.isSome)
    if filtered.isEmpty then some Status.ACCEPTABLE
    else if filtered.any (fun p => p.status = some Status.NOT_ACCEPTABLE) then
      some Status.NOT_ACCEPTABLE
    else if filtered.any (fun p => p.status = some Status.PERMISSIBLE) then
      some Status.PERMISSIBLE
    else some Status.ACCEPTABLE

/-- The permissible / not-acceptable tail of the RANGE rule, as the
specification words it (inclusive bounds, both bounds required). -/
def rangePermSpec (permissible : Limit) (v : ℚ) : Status :=
  match permissible.min, permissible.max with
  | some pmin, some pmax =>
    if pmin ≤ v ∧ v ≤ pmax then Status.PERMISSIBLE else Status.NOT_ACCEPTABLE
  | _, _ => Status.NOT_ACCEPTABLE

/-- The RANGE rule as the specification words it: value inside the
acceptable interval (both bounds present, inclusive at both ends) is
ACCEPTABLE; with the acceptable bounds absent the check is skipped and
evaluation falls through to the permissible check. -/
def rangeStatusSpec (acceptable permissible : Limit) (v : ℚ) : Status :=
  match acceptable.min, acceptable.max with
  | some amin, some amax =>
    if amin ≤ v ∧ v ≤ amax then Status.ACCEPTABLE else rangePermSpec permissible v
  | _, _ => rangePermSpec permissible v

/-- Resolve-with-fallback of the acceptable maximum, as the specification
words it: `acceptableLimit.max ?? legacy maxValue`. -/
def resolveAcceptableMax (acceptable : Limit) (maxValue : Option ℚ) : Option ℚ :=
  acceptable.max.orElse (fun _ => maxValue)

/-- The MAX rule as the specification words it. -/
def maxStatusSpec (acceptable permissible : Limit) (maxValue : Option ℚ) (v : ℚ) : Status :=
  match resolveAcceptableMax acceptable maxValue with
  | none => Status.ACCEPTABLE
  | some am =>
    if v ≤ am then Status.ACCEPTABLE
    else
      match permissible.max with
      | some pm => if v ≤ pm then Status.PERMISSIBLE else Status.NOT_ACCEPTABLE
      | none => Status.NOT_ACCEPTABLE

/-- The ENUM rule as the specification words it: empty mapping is a
configuration error; otherwise the trimmed input is matched
case-insensitively against the keys and the first matched key's verdict is
returned; no match is a validation error. -/
def enumStatusSpec (pname : String) (mapping : List (String × Status)) (v : JsValue) :
    Except CalcErr Status :=
  if mapping.isEmpty then Except.error (CalcErr.noEnumConfig pname)
  else
    match mapping.find? (fun kv => toLowerStr kv.1 = toLowerStr (trimStr v.jsToString)) with
    | some kv => Except.ok kv.2
    | none => Except.error (CalcErr.invalidEnum pname v.jsToString)

/-- The five legal lifecycle transitions named by the specification. -/
def allowedPairs : List (Lifecycle × Lifecycle) :=
  [(Lifecycle.COLLECTED, Lifecycle.FIELD_TESTED),
   (Lifecycle.FIELD_TESTED, Lifecycle.LAB_TESTED),
   (Lifecycle.LAB_TESTED, Lifecycle.PUBLISHED),
   (Lifecycle.PUBLISHED, Lifecycle.ARCHIVED),
   (Lifecycle.ARCHIVED, Lifecycle.PUBLISHED)]

/-- A MAX parameter with only `acceptableLimit.max = X` configured. -/
def maxOnlyMaster (X : ℚ) : ParameterMaster :=
  { id := 1
    code := "TDS"
    name := "Total Dissolved Solids"
    unit := "mg/L"
    type := PKind.MAX
    testLocation := TestLocation.LAB
    acceptableLimit := { min := none, max := some X }
    permissibleLimit := { min := none, max := none }
    physicalLimit := { min := none, max := none }
    affectsOverall := true
    maxValue := none
    enumEvaluation := []
    testMethod := ""
    isActive := true }

/-- An ENUM parameter mapping "Clear" to ACCEPTABLE, for the
case-insensitivity checks. -/
def colourMaster : ParameterMaster :=
  { id := 3
    code := "COLOUR"
    name := "Colour"
    unit := ""
    type := PKind.ENUM
    testLocation := TestLocation.FIELD
    acceptableLimit := { min := none, max := none }
    permissibleLimit := { min := none, max := none }
    physicalLimit := { min := none, max := none }
    affectsOverall := true
    maxValue := none
    enumEvaluation := [("Clear", Status.ACCEPTABLE), ("Yellowish", Status.PERMISSIBLE)]
    testMethod := ""
    isActive := true }

/-- A pH RANGE parameter with physical limits 0..14, used by witnesses. -/
def phMaster : ParameterMaster :=
  { id := 1
    code := "PH"
    name := "pH"
    unit := ""
    type := PKind.RANGE
    testLocation := TestLocation.LAB
    acceptableLimit := { min := some (13/2), max := some (17/2) }
    permissibleLimit := { min := none, max := none }
    physicalLimit := { min := some 0, max := some 14 }
    affectsOverall := true
    maxValue := none
    enumEvaluation := []
    testMethod := ""
    isActive := true }

/-- A stored FIELD snapshot of the pH parameter, used by the lab-test merge
claims. -/
def fieldSnapEx : ParameterSnapshot :=
  { parameterRef := 1
    code := "PH"
    name := "pH"
    unit := ""
    type := PKind.RANGE
    testLocation := TestLocation.FIELD
    acceptableLimit := { min := some (13/2), max := some (17/2) }
    permissibleLimit := { min := none, max := none }
    physicalLimit := { min := some 0, max := some 14 }
    maxValue := none
    enumEvaluation := []
    testMethod := ""
    affectsOverall := true
    value := JsValue.jnum 7
    status := some Status.ACCEPTABLE }

/-- An active LAB master (TDS), used by the lab-test merge claims. -/
def labMasterEx : ParameterMaster :=
  { id := 2
    code := "TDS"
    name := "Total Dissolved Solids"
    unit := "mg/L"
    type := PKind.MAX
    testLocation := TestLocation.LAB
    acceptableLimit := { min := none, max := some 500 }
    permissibleLimit := { min := none, max := some 2000 }
    physicalLimit := { min := some 0, max := none }
    affectsOverall := true
    maxValue := none
    enumEvaluation := []
    testMethod := ""
    isActive := true }

/-- A sample sitting in COLLECTED, used by the lifecycle witnesses. -/
def sampleCollectedEx : Sample :=
  { sampleId := "SMP-2501-00001"
    lifecycleStatus := Lifecycle.COLLECTED
    parameters := []
    overallStatus := none
    isDeleted := false
    fieldTestedBy := none
    fieldTestedAt := none
    labTestedBy := none
    labTestedAt := none
    publishedBy := none
    publishedAt := none }

/-- A sample sitting in LAB_TESTED, used by the lifecycle witnesses. -/
def sampleLabTestedEx : Sample :=
  { sampleId := "SMP-2501-00002"
    lifecycleStatus := Lifecycle.LAB_TESTED
    parameters := [fieldSnapEx]
    overallStatus := some Status.ACCEPTABLE
    isDeleted := false
    fieldTestedBy := some 4
    fieldTestedAt := some 10
    labTestedBy := some 1
    labTestedAt := some 20
    publishedBy := none
    publishedAt := none }

/-- A sample sitting in FIELD_TESTED holding one field snapshot, used by the
lab-test witnesses. -/
def sampleFieldTestedEx : Sample :=
  { sampleId := "SMP-2501-00003"
    lifecycleStatus := Lifecycle.FIELD_TESTED
    parameters := [fieldSnapEx]
    overallStatus := none
    isDeleted := false
    fieldTestedBy := some 4
    fieldTestedAt := some 10
    labTestedBy := none
    labTestedAt := none
    publishedBy := none
    publishedAt := none }

/-- A TEXT parameter, used by the validation-order witnesses. -/
def remarksMaster : ParameterMaster :=
  { id := 9
    code := "REMARKS"
    name := "Remarks"
    unit := ""
    type := PKind.TEXT
    testLocation := TestLocation.FIELD
    acceptableLimit := { min := none, max := none }
    permissibleLimit := { min := none, max := none }
    physicalLimit := { min := none, max := none }
    affectsOverall := false
    maxValue := none
    enumEvaluation := []
    testMethod := ""
    isActive := true }

/-- An ENUM parameter with no mapping configured, used by the enum
configuration-error witnesses. -/
def odourMaster : ParameterMaster :=
  { id := 4
    code := "ODOUR"
    name := "Odour"
    unit := ""
    type := PKind.ENUM
    testLocation := TestLocation.FIELD
    acceptableLimit := { min := none, max := none }
    permissibleLimit := { min := none, max := none }
    physicalLimit := { min := none, max := none }
    affectsOverall := true
    maxValue := none
    enumEvaluation := []
    testMethod := ""
    isActive := true }

/-- A 501-character string, one character past the TEXT length limit. -/
def longTextEx : String :=
  String.mk (List.replicate 501 'a')

/-! ## Helper lemmas -/

theorem any_filter_of_imp {α : Type} {q f : α → Bool} (h : ∀ x, f x = true → q x = true) :
    ∀ l : List α, (l.filter q).any f = l.any f := by
  intro l
  induction l with
  | nil => rfl
  | cons x xs ih =>
    by_cases hq : q x = true
    · simp only [List.filter_cons, hq, if_true, List.any_cons, ih]
    · have hf : f x = false := by
        cases hfx : f x
        · rfl
        · exact absurd (h x hfx) hq
      rw [Bool.not_eq_true] at hq
      simp only [List.filter_cons, hq, Bool.false_eq_true, if_false, List.any_cons, hf,
        Bool.false_or, ih]

theorem enumLoop_eq_find {normLower : String} :
    ∀ l : List (String × Status),
      ParameterMaster.enumLoop normLower l =
        (l.find? (fun kv => toLowerStr kv.1 = normLower)).map (fun kv => kv.2) := by
  intro l
  induction l with
  | nil => rfl
  | cons kv rest ih =>
    by_cases hk : toLowerStr kv.1 = normLower
    · simp [ParameterMaster.enumLoop, List.find?_cons, hk]
    · simp [ParameterMaster.enumLoop, List.find?_cons, hk, ih]

/-! ## Claim theorems -/

/-- C1: for every list of parameter snapshots, the overall-status
aggregation of `StatusEngine.calculateOverallStatus` satisfies the
specification's description: empty list → null; non-empty list whose
filtered set (affectsOverall true and status non-null) is empty →
ACCEPTABLE; otherwise NOT_ACCEPTABLE if any filtered snapshot is
NOT_ACCEPTABLE, else PERMISSIBLE if any is PERMISSIBLE, else ACCEPTABLE. -/
theorem c1_calculateOverallStatus_matches_spec (parameters : List ParameterSnapshot) :
    StatusEngine.calculateOverallStatus parameters = aggregateSpec parameters := by
  by_cases hnil : parameters = []
  · simp [StatusEngine.calculateOverallStatus, aggregateSpec, hnil]
  · simp [StatusEngine.calculateOverallStatus, aggregateSpec, hnil]
    have hiffN : (∃ x ∈ parameters,
        (x.affectsOverall = true ∧ x.status.isSome = true) ∧
          x.status = some Status.NOT_ACCEPTABLE)
        ↔ (∃ x ∈ parameters,
            x.affectsOverall = true ∧ x.status = some Status.NOT_ACCEPTABLE) := by
      constructor
      · rintro ⟨x, hx, ⟨ha, _⟩, hs⟩
        exact ⟨x, hx, ha, hs⟩
      · rintro ⟨x, hx, ha, hs⟩
        refine ⟨x, hx, ⟨ha, ?_⟩, hs⟩
        rw [hs]
        rfl
    have hiffP : (∃ x ∈ parameters,
        (x.affectsOverall = true ∧ x.status.isSome = true) ∧
          x.status = some Status.PERMISSIBLE)
        ↔ (∃ x ∈ parameters,
            x.affectsOverall = true ∧ x.status = some Status.PERMISSIBLE) := by
      constructor
      · rintro ⟨x, hx, ⟨ha, _⟩, hs⟩
        exact ⟨x, hx, ha, hs⟩
      · rintro ⟨x, hx, ha, hs⟩
        refine ⟨x, hx, ⟨ha, ?_⟩, hs⟩
        rw [hs]
        rfl
    simp only [hiffN, hiffP]
    by_cases hCA : ∀ a ∈ parameters, a.affectsOverall = false
    · have hCF : ∀ a ∈ parameters, a.affectsOverall = true → a.status = none := by
        intro a ha haff
        rw [hCA a ha] at haff
        exact absurd haff Bool.false_ne_true
      rw [if_pos hCA, if_pos hCF]
    · by_cases hCF : ∀ a ∈ parameters, a.affectsOverall = true → a.status = none
      · rw [if_neg hCA, if_pos hCF]
        have hnN : ¬ ∃ x ∈ parameters,
            x.affectsOverall = true ∧ x.status = some Status.NOT_ACCEPTABLE := by
          rintro ⟨x, hx, ha, hs⟩
          rw [hCF x hx ha] at hs
          exact Option.noConfusion hs
        have hnP : ¬ ∃ x ∈ parameters,
            x.affectsOverall = true ∧ x.status = some Status.PERMISSIBLE := by
          rintro ⟨x, hx, ha, hs⟩
          rw [hCF x hx ha] at hs
          exact Option.noConfusion hs
        rw [if_neg hnN, if_neg hnP]
      · rw [if_neg hCA, if_neg hCF]

/-- C4: for every RANGE parameter and validated numeric value, the status
computed by `calculateRangeStatus` matches the specification's rule:
ACCEPTABLE inside the inclusive acceptable interval (both bounds present),
else PERMISSIBLE inside the inclusive permissible interval, else
NOT_ACCEPTABLE, with the acceptable check skipped when its bounds are
absent. -/
theorem c4_calculateRangeStatus_matches_spec (p : ParameterMaster) (v : ℚ) :
    p.calculateRangeStatus (some v) = rangeStatusSpec p.acceptableLimit p.permissibleLimit v := by
  unfold ParameterMaster.calculateRangeStatus rangeStatusSpec rangePermSpec
  cases hamin : p.acceptableLimit.min <;> cases hamax : p.acceptableLimit.max <;>
    cases hpmin : p.permissibleLimit.min <;> cases hpmax : p.permissibleLimit.max <;>
      simp [hamin, hamax, hpmin, hpmax, qGeB, qLeB, Bool.and_eq_true, decide_eq_true_eq]

/-- C5: for every MAX parameter and validated numeric value, the status
computed by `calculateMaxStatus` matches the specification's rule, with the
acceptable maximum resolved as `acceptableLimit.max` falling back to the
legacy `maxValue`; and in particular, with only `acceptableLimit.max = X`
set, `X` itself is ACCEPTABLE while anything above `X` is NOT_ACCEPTABLE. -/
theorem c5_calculateMaxStatus_matches_spec :
    (∀ (p : ParameterMaster) (v : ℚ),
      p.calculateMaxStatus (some v) =
        maxStatusSpec p.acceptableLimit p.permissibleLimit p.maxValue v) ∧
    (∀ X v : ℚ, (maxOnlyMaster X).calculateMaxStatus (some v) =
      if v ≤ X then Status.ACCEPTABLE else Status.NOT_ACCEPTABLE) := by
  constructor
  · intro p v
    unfold ParameterMaster.calculateMaxStatus maxStatusSpec resolveAcceptableMax
    cases hamax : p.acceptableLimit.max <;> cases hmv : p.maxValue <;>
      cases hpmax : p.permissibleLimit.max <;>
        simp [hamax, hmv, hpmax, qLeB, Option.orElse, decide_eq_true_eq]
  · intro X v
    unfold maxOnlyMaster ParameterMaster.calculateMaxStatus
    simp [qLeB, decide_eq_true_eq]

/-- C10: in the legacy single-stage variant, `calculateStatus` applied to a
null, undefined or empty-string value returns ACCEPTABLE instead of raising
an error, and the legacy `validateParameterValue` reports such empty values
as valid — an empty measurement silently passes evaluation. -/
theorem c10_legacy_empty_value_passes (p : LegacyParameterMaster) :
    p.calculateStatus JsValue.jnull = Status.ACCEPTABLE ∧
    p.calculateStatus JsValue.jundef = Status.ACCEPTABLE ∧
    p.calculateStatus (JsValue.jstr "") = Status.ACCEPTABLE ∧
    LegacyStatusEngine.validateParameterValue p JsValue.jnull = none ∧
    LegacyStatusEngine.validateParameterValue p JsValue.jundef = none ∧
    LegacyStatusEngine.validateParameterValue p (JsValue.jstr "") = none :=
  ⟨rfl, rfl, rfl, rfl, rfl, rfl⟩

/-- C2: a snapshot stores its own copies of the acceptable, permissible and
physical limits and of the enum mapping, reflecting the definition's values
at snapshot-creation time; and the `updateParameter` operation (changing a
limit, deactivating, or any other edit) transforms only the parameter
registry — the sample store holding already-created snapshots is untouched,
whether or not the update finds its target. -/
theorem c2_snapshot_frozen (p : ParameterMaster) (v : JsValue) (st : Status)
    (u : ParamUpdates) (db : SysState) (i : Nat) :
    ((mkSnapshot p v st).acceptableLimit = p.acceptableLimit ∧
     (mkSnapshot p v st).permissibleLimit = p.permissibleLimit ∧
     (mkSnapshot p v st).physicalLimit = p.physicalLimit ∧
     (mkSnapshot p v st).enumEvaluation = p.enumEvaluation) ∧
    (ParameterController.stateAfterUpdate db i u).samples = db.samples := by
  refine ⟨⟨rfl, rfl, rfl, rfl⟩, ?_⟩
  unfold ParameterController.stateAfterUpdate ParameterController.updateParameter
  split
  · rfl
  · rfl

/-- C3: validation proceeds in strict short-circuit order: an empty value
(null, undefined or empty string) is rejected first as required; then, for
RANGE and MAX kinds, a non-numeric value is rejected as not a number and a
numeric value below `physicalLimit.min` or above `physicalLimit.max` (when
set) is rejected as outside the physical bounds; for TEXT kind a value
longer than 500 characters is rejected; and when validation fails the
processing pipeline returns that validation error, so status computation is
never reached. -/
theorem c3_validation_order (p : ParameterMaster) (v : JsValue) :
    (v.isEmptyValue = true →
      p.validatePhysicalLimits v = some (VErr.requiredValue p.name)) ∧
    ((p.type = PKind.RANGE ∨ p.type = PKind.MAX) → v.isEmptyValue = false →
      parseFloat v = none →
      p.validatePhysicalLimits v = some (VErr.notANumber p.name)) ∧
    (∀ n pmin : ℚ, (p.type = PKind.RANGE ∨ p.type = PKind.MAX) →
      v.isEmptyValue = false → parseFloat v = some n →
      p.physicalLimit.min = some pmin → n < pmin →
      p.validatePhysicalLimits v = some (VErr.belowPhysicalMin p.name pmin)) ∧
    (∀ n pmax : ℚ, (p.type = PKind.RANGE ∨ p.type = PKind.MAX) →
      v.isEmptyValue = false → parseFloat v = some n →
      p.physicalLimit.min.all (fun pmin => pmin ≤ n) = true →
      p.physicalLimit.max = some pmax → pmax < n →
      p.validatePhysicalLimits v = some (VErr.abovePhysicalMax p.name pmax)) ∧
    (p.type = PKind.TEXT → v.isEmptyValue = false → 500 < (v.jsToString).length →
      p.validatePhysicalLimits v = some (VErr.textTooLong p.name)) ∧
    (∀ (masters : List ParameterMaster) (ref : Nat) (e : VErr),
      masters.find? (fun m => m.id = ref) = some p →
      p.validatePhysicalLimits v = some e →
      StatusEngine.processInput masters (ref, v) = Except.error (PErr.invalid e)) := by
  refine ⟨?_, ?_, ?_, ?_, ?_, ?_⟩
  · intro hemp
    simp [ParameterMaster.validatePhysicalLimits, hemp]
  · intro htype hemp hparse
    rcases htype with h | h <;>
      simp [ParameterMaster.validatePhysicalLimits, ParameterMaster.checkNumeric,
        hemp, hparse, h]
  · intro n pmin htype hemp hparse hmin hlt
    rcases htype with h | h <;>
      simp [ParameterMaster.validatePhysicalLimits, ParameterMaster.checkNumeric,
        hemp, hparse, hmin, hlt, h]
  · intro n pmax htype hemp hparse hminok hmax hlt
    cases hminv : p.physicalLimit.min with
    | none =>
      rcases htype with h | h <;>
        simp [ParameterMaster.validatePhysicalLimits, ParameterMaster.checkNumeric,
          hemp, hparse, hminv, hmax, hlt, h]
    | some pmin =>
      rw [hminv] at hminok
      have hple : pmin ≤ n := by
        simpa using hminok
      have hnlt : ¬ n < pmin := not_lt.mpr hple
      rcases htype with h | h <;>
        simp [ParameterMaster.validatePhysicalLimits, ParameterMaster.checkNumeric,
          hemp, hparse, hminv, hnlt, hmax, hlt, h]
  · intro htype hemp hlen
    cases v with
    | jnull => simp [JsValue.isEmptyValue] at hemp
    | jundef => simp [JsValue.isEmptyValue] at hemp
    | jnum q =>
      simp [ParameterMaster.validatePhysicalLimits, ParameterMaster.checkText,
        hemp, hlen, htype]
    | jstr s =>
      simp [ParameterMaster.validatePhysicalLimits, ParameterMaster.checkText,
        hemp, hlen, htype]
  · intro masters ref e hfind hval
    simp [StatusEngine.processInput, hfind, hval]

set_option maxRecDepth 4000 in
/-- Witness for C3 at concrete inputs: the pH RANGE parameter rejects an
empty value, a non-numeric string, a value below the physical minimum and a
value above the physical maximum; the TEXT parameter rejects a 501-character
string; and a validation failure propagates through `processInput`. -/
theorem c3_validation_order_witness :
    ParameterMaster.validatePhysicalLimits phMaster JsValue.jnull =
      some (VErr.requiredValue "pH") ∧
    ParameterMaster.validatePhysicalLimits phMaster (JsValue.jstr "abc") =
      some (VErr.notANumber "pH") ∧
    ParameterMaster.validatePhysicalLimits phMaster (JsValue.jnum (-1)) =
      some (VErr.belowPhysicalMin "pH" 0) ∧
    ParameterMaster.validatePhysicalLimits phMaster (JsValue.jnum 15) =
      some (VErr.abovePhysicalMax "pH" 14) ∧
    ParameterMaster.validatePhysicalLimits remarksMaster (JsValue.jstr longTextEx) =
      some (VErr.textTooLong "Remarks") ∧
    StatusEngine.processInput [phMaster] (1, JsValue.jnull) =
      Except.error (PErr.invalid (VErr.requiredValue "pH")) := by
  refine ⟨?_, ?_, ?_, ?_, ?_, ?_⟩
  · exact (c3_validation_order phMaster JsValue.jnull).1 (by decide)
  · exact (c3_validation_order phMaster (JsValue.jstr "abc")).2.1
      (Or.inl rfl) (by decide) (by decide)
  · exact (c3_validation_order phMaster (JsValue.jnum (-1))).2.2.1
      (-1) 0 (Or.inl rfl) (by decide) rfl rfl (by norm_num)
  · exact (c3_validation_order phMaster (JsValue.jnum 15)).2.2.2.1
      15 14 (Or.inl rfl) (by decide) rfl (by decide) rfl (by norm_num)
  · exact (c3_validation_order remarksMaster (JsValue.jstr longTextEx)).2.2.2.2.1
      rfl (by decide) (by decide)
  · exact (c3_validation_order phMaster JsValue.jnull).2.2.2.2.2
      [phMaster] 1 (VErr.requiredValue "pH") rfl
      ((c3_validation_order phMaster JsValue.jnull).1 (by decide))

/-- C6: an ENUM parameter with an empty mapping fails with a configuration
error; otherwise the trimmed input is matched case-insensitively against the
mapping keys and the matched key's verdict is returned, while an unmapped
value is rejected with a validation error rather than silently defaulted —
in particular "clear" matches "Clear", and the same configuration check is
enforced by `validatePhysicalLimits`. -/
theorem c6_enum_evaluation (p : ParameterMaster) (v : JsValue) :
    (p.enumEvaluation = [] →
      p.calculateEnumStatus v = Except.error (CalcErr.noEnumConfig p.name)) ∧
    (p.calculateEnumStatus v = enumStatusSpec p.name p.enumEvaluation v) ∧
    (p.type = PKind.ENUM → v.isEmptyValue = false → p.enumEvaluation = [] →
      p.validatePhysicalLimits v = some (VErr.noEnumConfigured p.name)) ∧
    (colourMaster.calculateEnumStatus (JsValue.jstr "clear") = Except.ok Status.ACCEPTABLE) ∧
    (colourMaster.calculateEnumStatus (JsValue.jstr "Muddy") =
      Except.error (CalcErr.invalidEnum "Colour" "Muddy")) := by
  refine ⟨?_, ?_, ?_, rfl, rfl⟩
  · intro h
    simp [ParameterMaster.calculateEnumStatus, h]
  · by_cases he : p.enumEvaluation.isEmpty
    · simp [ParameterMaster.calculateEnumStatus, enumStatusSpec, he]
    · simp only [ParameterMaster.calculateEnumStatus, enumStatusSpec, he, Bool.false_eq_true,
        if_false]
      rw [enumLoop_eq_find]
      cases hf : p.enumEvaluation.find?
          (fun kv => toLowerStr kv.1 = toLowerStr (trimStr v.jsToString)) <;>
        simp [hf]
  · intro htype hemp hmap
    simp [ParameterMaster.validatePhysicalLimits, ParameterMaster.checkEnum,
      ParameterMaster.getEnumKeys, hemp, htype, hmap]

/-- Witness for C6 at concrete inputs: the unconfigured ENUM parameter fails
with the configuration error in both the calculator and the validator, and
the refinement to the specification's lookup holds at a concrete value. -/
theorem c6_enum_evaluation_witness :
    ParameterMaster.calculateEnumStatus odourMaster (JsValue.jstr "ok") =
      Except.error (CalcErr.noEnumConfig "Odour") ∧
    ParameterMaster.validatePhysicalLimits odourMaster (JsValue.jstr "ok") =
      some (VErr.noEnumConfigured "Odour") ∧
    ParameterMaster.calculateEnumStatus colourMaster (JsValue.jstr "YELLOWISH") =
      enumStatusSpec "Colour" colourMaster.enumEvaluation (JsValue.jstr "YELLOWISH") :=
  ⟨(c6_enum_evaluation odourMaster (JsValue.jstr "ok")).1 rfl,
   (c6_enum_evaluation odourMaster (JsValue.jstr "ok")).2.2.1 rfl (by decide) rfl,
   (c6_enum_evaluation colourMaster (JsValue.jstr "YELLOWISH")).2.1⟩

/-- C7: the only legal lifecycle transitions are COLLECTED→FIELD_TESTED,
FIELD_TESTED→LAB_TESTED, LAB_TESTED→PUBLISHED, PUBLISHED→ARCHIVED and
ARCHIVED→PUBLISHED (restore); publishing a live sample that is not
LAB_TESTED — in particular one still in COLLECTED — is rejected with an
error naming the current state and leaves the persisted sample unchanged,
and any successful publish is a transition the table allows. -/
theorem c7_lifecycle_transitions :
    (∀ c n : Lifecycle, isValidTransition c n = true ↔ (c, n) ∈ allowedPairs) ∧
    (∀ (s : Sample) (u t : Nat), s.isDeleted = false →
      s.lifecycleStatus = Lifecycle.COLLECTED →
      SampleController.publishSample s u t =
        Except.error (StateErr.wrongState Lifecycle.LAB_TESTED Lifecycle.COLLECTED) ∧
      SampleController.persistedAfter s (SampleController.publishSample s u t) = s) ∧
    (∀ (s : Sample) (u t : Nat), s.isDeleted = false →
      isValidTransition s.lifecycleStatus Lifecycle.PUBLISHED = false →
      SampleController.publishSample s u t =
        Except.error (StateErr.wrongState Lifecycle.LAB_TESTED s.lifecycleStatus) ∧
      SampleController.persistedAfter s (SampleController.publishSample s u t) = s) ∧
    (∀ (s : Sample) (u t : Nat) (s2 : Sample),
      SampleController.publishSample s u t = Except.ok s2 →
      isValidTransition s.lifecycleStatus s2.lifecycleStatus = true) := by
  refine ⟨by decide, ?_, ?_, ?_⟩
  · intro s u t hdel hstat
    constructor
    · simp [SampleController.publishSample, hdel, hstat]
    · simp [SampleController.publishSample, SampleController.persistedAfter, hdel, hstat]
  · intro s u t hdel hnv
    have hne : s.lifecycleStatus ≠ Lifecycle.LAB_TESTED := by
      intro hl
      rw [hl] at hnv
      exact absurd hnv (by decide)
    constructor
    · simp [SampleController.publishSample, hdel, hne]
    · simp [SampleController.publishSample, SampleController.persistedAfter, hdel, hne]
  · intro s u t s2 h
    simp only [SampleController.publishSample] at h
    split at h
    · exact absurd h (by simp)
    · split at h
      · exact absurd h (by simp)
      · rename_i hdel hne
        have hl : s.lifecycleStatus = Lifecycle.LAB_TESTED := by
          by_contra hc
          exact hne hc
        have hs2 : s2 = { s with
            lifecycleStatus := Lifecycle.PUBLISHED
            publishedBy := some u
            publishedAt := some t } := by
          injection h with h2
          exact h2.symm
        rw [hs2, hl]
        rfl

/-- Witness for C7 at concrete samples: publishing a COLLECTED sample is
rejected naming COLLECTED and persists nothing, the generic wrong-state
rejection fires at the same sample, and a successful publish of a LAB_TESTED
sample is a table-allowed transition. -/
theorem c7_lifecycle_transitions_witness :
    (SampleController.publishSample sampleCollectedEx 7 3 =
      Except.error (StateErr.wrongState Lifecycle.LAB_TESTED Lifecycle.COLLECTED)) ∧
    (SampleController.persistedAfter sampleCollectedEx
      (SampleController.publishSample sampleCollectedEx 7 3) = sampleCollectedEx) ∧
    (SampleController.publishSample sampleCollectedEx 7 3 =
      Except.error (StateErr.wrongState Lifecycle.LAB_TESTED
        sampleCollectedEx.lifecycleStatus)) ∧
    isValidTransition sampleLabTestedEx.lifecycleStatus
      ({ sampleLabTestedEx with
          lifecycleStatus := Lifecycle.PUBLISHED
          publishedBy := some 7
          publishedAt := some 3 } : Sample).lifecycleStatus = true :=
  ⟨(c7_lifecycle_transitions.2.1 sampleCollectedEx 7 3 rfl rfl).1,
   (c7_lifecycle_transitions.2.1 sampleCollectedEx 7 3 rfl rfl).2,
   (c7_lifecycle_transitions.2.2.1 sampleCollectedEx 7 3 rfl (by decide)).1,
   c7_lifecycle_transitions.2.2.2 sampleLabTestedEx 7 3 _ rfl⟩

/-- C8: if any input value in a measurement batch fails validation the whole
batch is rejected: the failure carries every per-parameter error from the
batch (not only the first), no snapshot list is produced, and the
controller-level lab submission leaves the persisted sample exactly as it
was. -/
theorem c8_batch_atomicity :
    (∀ (inputs : List (Nat × JsValue)) (masters : List ParameterMaster) (es : List PErr),
      StatusEngine.processParameters inputs masters = Except.error es →
      ∀ i ∈ inputs, ∀ e : PErr,
        StatusEngine.processInput masters i = Except.error e → e ∈ es) ∧
    (∀ (inputs : List (Nat × JsValue)) (masters : List ParameterMaster),
      ∀ i ∈ inputs, ∀ e : PErr,
        StatusEngine.processInput masters i = Except.error e →
        StatusEngine.processParameters inputs masters =
          Except.error ((inputs.map (StatusEngine.processInput masters)).filterMap
            StatusEngine.errPart)) ∧
    (∀ (s : Sample) (inputs : List (Nat × JsValue)) (masters : List ParameterMaster)
      (u t : Nat) (e : SampleController.SubmitErr),
      SampleController.submitLabTest s inputs masters u t = Except.error e →
      SampleController.persistedAfter s
        (SampleController.submitLabTest s inputs masters u t) = s) := by
  refine ⟨?_, ?_, ?_⟩
  · intro inputs masters es h i hi e he
    simp only [StatusEngine.processParameters] at h
    split at h
    · exact absurd h (by simp)
    · injection h with h2
      rw [← h2, List.filterMap_map]
      refine List.mem_filterMap.mpr ⟨i, hi, ?_⟩
      simp [Function.comp, he, StatusEngine.errPart]
  · intro inputs masters i hi e he
    have hmem : e ∈ (inputs.map (StatusEngine.processInput masters)).filterMap
        StatusEngine.errPart := by
      rw [List.filterMap_map]
      refine List.mem_filterMap.mpr ⟨i, hi, ?_⟩
      simp [Function.comp, he, StatusEngine.errPart]
    have hne : ((inputs.map (StatusEngine.processInput masters)).filterMap
        StatusEngine.errPart).isEmpty = false := by
      cases hh : ((inputs.map (StatusEngine.processInput masters)).filterMap
          StatusEngine.errPart).isEmpty
      · rfl
      · exfalso
        rw [List.isEmpty_iff] at hh
        rw [hh] at hmem
        exact absurd hmem (List.not_mem_nil e)
    simp only [StatusEngine.processParameters]
    have hcond : ¬ ((inputs.map (StatusEngine.processInput masters)).filterMap
        StatusEngine.errPart).isEmpty = true := by
      rw [hne]
      exact Bool.false_ne_true
    rw [if_neg hcond]
  · intro s inputs masters u t e h
    simp [SampleController.persistedAfter, h]

/-- Witness for C8 at a concrete failing batch: two bad lab values (an empty
one and a non-numeric one) produce both errors, the batch is rejected with
the full error list, and the sample persisted after the failed submission is
unchanged. -/
theorem c8_batch_atomicity_witness :
    (PErr.invalid (VErr.notANumber "pH")) ∈
      [PErr.invalid (VErr.requiredValue "pH"), PErr.invalid (VErr.notANumber "pH")] ∧
    StatusEngine.processParameters [(1, JsValue.jnull), (1, JsValue.jstr "abc")] [phMaster] =
      Except.error (([(1, JsValue.jnull), (1, JsValue.jstr "abc")].map
        (StatusEngine.processInput [phMaster])).filterMap StatusEngine.errPart) ∧
    SampleController.persistedAfter sampleFieldTestedEx
      (SampleController.submitLabTest sampleFieldTestedEx
        [(1, JsValue.jnull), (1, JsValue.jstr "abc")] [phMaster] 1 2) = sampleFieldTestedEx := by
  refine ⟨?_, ?_, ?_⟩
  · exact c8_batch_atomicity.1 [(1, JsValue.jnull), (1, JsValue.jstr "abc")] [phMaster]
      [PErr.invalid (VErr.requiredValue "pH"), PErr.invalid (VErr.notANumber "pH")]
      rfl (1, JsValue.jstr "abc") (by simp) (PErr.invalid (VErr.notANumber "pH")) rfl
  · exact c8_batch_atomicity.2.1 [(1, JsValue.jnull), (1, JsValue.jstr "abc")] [phMaster]
      (1, JsValue.jnull) (by simp) (PErr.invalid (VErr.requiredValue "pH")) rfl
  · exact c8_batch_atomicity.2.2 sampleFieldTestedEx
      [(1, JsValue.jnull), (1, JsValue.jstr "abc")] [phMaster] 1 2
      (SampleController.SubmitErr.engine (StatusEngine.LabErr.validationFailed
        [PErr.invalid (VErr.requiredValue "pH"), PErr.invalid (VErr.notANumber "pH")])) rfl

/-- C9 counterexample: a lab-test submission on a sample holding one field
snapshot (code "PH") that submits the same LAB parameter twice succeeds, and
the merged collection lists code "TDS" twice — the claim that the merged
snapshot collection never contains duplicate entries for the same parameter
code fails at this input. -/
theorem c9_counterexample :
    (match StatusEngine.processLabTest [(2, JsValue.jnum 100), (2, JsValue.jnum 100)]
        [labMasterEx] [fieldSnapEx] with
     | Except.ok (ps, _) => ps.map (fun p => p.code)
     | Except.error _ => ([] : List String)) = ["PH", "TDS", "TDS"] ∧
    ¬ (["PH", "TDS", "TDS"] : List String).Nodup :=
  ⟨rfl, by decide⟩

theorem okPart_eq_some {r : Except PErr ParameterSnapshot} {sn : ParameterSnapshot}
    (h : StatusEngine.okPart r = some sn) : r = Except.ok sn := by
  cases r with
  | ok s =>
    simp [StatusEngine.okPart] at h
    rw [h]
  | error e => simp [StatusEngine.okPart] at h

theorem processInput_ok_code {masters : List ParameterMaster} {i : Nat × JsValue}
    {sn : ParameterSnapshot} (h : StatusEngine.processInput masters i = Except.ok sn) :
    ∃ m ∈ masters, m.id = i.1 ∧ sn.code = m.code := by
  simp only [StatusEngine.processInput] at h
  split at h
  · exact absurd h (by simp)
  · rename_i m hf
    split at h
    · exact absurd h (by simp)
    · split at h
      · exact absurd h (by simp)
      · rename_i st hc
        injection h with h2
        refine ⟨m, List.mem_of_find?_eq_some hf, ?_, ?_⟩
        · simpa using List.find?_some hf
        · rw [← h2]
          rfl

theorem processParameters_ok_elim {inputs : List (Nat × JsValue)}
    {masters : List ParameterMaster} {snaps : List ParameterSnapshot}
    (h : StatusEngine.processParameters inputs masters = Except.ok snaps) :
    snaps = (inputs.map (StatusEngine.processInput masters)).filterMap StatusEngine.okPart := by
  simp only [StatusEngine.processParameters] at h
  split at h
  · injection h with h2
    exact h2.symm
  · exact absurd h (by simp)

theorem snapCodes_nodup (masters : List ParameterMaster)
    (hmc : (masters.map (fun m => m.code)).Nodup) :
    ∀ inputs : List (Nat × JsValue), (inputs.map (fun i => i.1)).Nodup →
      (((inputs.map (StatusEngine.processInput masters)).filterMap
        StatusEngine.okPart).map (fun sn => sn.code)).Nodup := by
  intro inputs
  induction inputs with
  | nil =>
    intro _
    simp
  | cons i rest ih =>
    intro hnd
    have hnd2 : (i.1 :: rest.map (fun j => j.1)).Nodup := by simpa using hnd
    have hhead := (List.nodup_cons.mp hnd2).1
    have htail : (rest.map (fun j => j.1)).Nodup := (List.nodup_cons.mp hnd2).2
    cases hr : StatusEngine.okPart (StatusEngine.processInput masters i) with
    | none =>
      simp only [List.map_cons, List.filterMap_cons, hr]
      exact ih htail
    | some sn =>
      simp only [List.map_cons, List.filterMap_cons, hr]
      rw [List.nodup_cons]
      refine ⟨?_, ih htail⟩
      intro hmem
      rw [List.mem_map] at hmem
      obtain ⟨sn2, hsn2mem, hcodeeq⟩ := hmem
      rw [List.mem_filterMap] at hsn2mem
      obtain ⟨r, hrmem, hok2⟩ := hsn2mem
      rw [List.mem_map] at hrmem
      obtain ⟨j, hjmem, rfl⟩ := hrmem
      have hisn : StatusEngine.processInput masters i = Except.ok sn := okPart_eq_some hr
      have hjsn : StatusEngine.processInput masters j = Except.ok sn2 := okPart_eq_some hok2
      obtain ⟨m1, hm1mem, hm1id, hm1code⟩ := processInput_ok_code hisn
      obtain ⟨m2, hm2mem, hm2id, hm2code⟩ := processInput_ok_code hjsn
      have hne : i.1 ≠ j.1 := by
        intro hEq
        exact hhead (by
          rw [hEq]
          exact List.mem_map_of_mem _ hjmem)
      have hm12 : m1 ≠ m2 := by
        intro hEq
        rw [hEq] at hm1id
        exact hne (by rw [← hm1id, ← hm2id])
      have hcc : m1.code = m2.code := by
        rw [← hm1code, ← hm2code, hcodeeq]
      exact hm12 (List.inj_on_of_nodup_map hmc hm1mem hm2mem hcc)

/-- C9 (amended): for every lab-test submission that succeeds, the merged
snapshot collection is exactly the previously stored field snapshots, in
their original order, followed by the new lab snapshots; and provided the
submitted parameter references are pairwise distinct and parameter codes are
unique across the stored field snapshots and the lab definitions (which the
unique code index guarantees), the merged collection contains no duplicate
entries for the same parameter code. -/
theorem c9_amended_merge (existingFieldParams : List ParameterSnapshot)
    (inputs : List (Nat × JsValue)) (labMasters : List ParameterMaster)
    (allParams : List ParameterSnapshot) (overall : Option Status)
    (hok : StatusEngine.processLabTest inputs labMasters existingFieldParams =
      Except.ok (allParams, overall))
    (hrefs : (inputs.map (fun i => i.1)).Nodup)
    (hcodes : ((existingFieldParams.map (fun p => p.code)) ++
      (labMasters.map (fun m => m.code))).Nodup) :
    (∃ labSnaps, allParams = existingFieldParams ++ labSnaps ∧
      ∀ sn ∈ labSnaps, ∃ m ∈ labMasters, sn.code = m.code) ∧
    (allParams.map (fun p => p.code)).Nodup := by
  simp only [StatusEngine.processLabTest] at hok
  split at hok
  · exact absurd hok (by simp)
  · split at hok
    · exact absurd hok (by simp)
    · split at hok
      · exact absurd hok (by simp)
      · split at hok
        · exact absurd hok (by simp)
        · rename_i labSnaps hpp
          injection hok with hpair
          have hall : allParams = existingFieldParams ++ labSnaps :=
            (congrArg Prod.fst hpair).symm
          have hsnaps_eq := processParameters_ok_elim hpp
          have hsn_code : ∀ sn ∈ labSnaps, ∃ m ∈ labMasters, sn.code = m.code := by
            intro sn hsn
            rw [hsnaps_eq] at hsn
            rw [List.mem_filterMap] at hsn
            obtain ⟨r, hrmem, hok2⟩ := hsn
            rw [List.mem_map] at hrmem
            obtain ⟨j, hjmem, rfl⟩ := hrmem
            obtain ⟨m, hmmem, _, hcode⟩ := processInput_ok_code (okPart_eq_some hok2)
            exact ⟨m, hmmem, hcode⟩
          constructor
          · exact ⟨labSnaps, hall, hsn_code⟩
          · rw [hall, List.map_append, List.nodup_append]
            refine ⟨List.Nodup.of_append_left hcodes, ?_, ?_⟩
            · rw [hsnaps_eq]
              exact snapCodes_nodup labMasters (List.Nodup.of_append_right hcodes)
                inputs hrefs
            · intro a ha hb
              rw [List.mem_map] at hb
              obtain ⟨sn, hsnmem, hsncode⟩ := hb
              obtain ⟨m, hmmem, hcode⟩ := hsn_code sn hsnmem
              have hbm : a ∈ labMasters.map (fun m => m.code) := by
                rw [← hsncode, hcode]
                exact List.mem_map_of_mem _ hmmem
              exact (List.nodup_append.mp hcodes).2.2 ha hbm

/-- Witness for the amended C9 at a concrete successful submission: one
stored field snapshot ("PH"), one lab input for the "TDS" master — the merge
keeps the field snapshot first and the merged codes are duplicate-free. -/
theorem c9_amended_merge_witness :
    (∃ labSnaps,
      [fieldSnapEx, mkSnapshot labMasterEx (JsValue.jnum 100) Status.ACCEPTABLE]
        = [fieldSnapEx] ++ labSnaps ∧
      ∀ sn ∈ labSnaps, ∃ m ∈ [labMasterEx], sn.code = m.code) ∧
    (([fieldSnapEx, mkSnapshot labMasterEx (JsValue.jnum 100) Status.ACCEPTABLE].map
      (fun p => p.code)).Nodup) :=
  c9_amended_merge [fieldSnapEx] [(2, JsValue.jnum 100)] [labMasterEx]
    [fieldSnapEx, mkSnapshot labMasterEx (JsValue.jnum 100) Status.ACCEPTABLE]
    (some Status.ACCEPTABLE) rfl (by decide) (by decide)
